import Mathlib

/-!
Verification of the Mount-Maker geometry calculator.

The source is a small React application. Its computational core
(src/App.tsx, src/constants.ts, src/types.ts, src/services/geminiService.ts)
is embedded here over exact rationals (ℚ), replacing JavaScript numbers:
every numeric field of the configuration is a rational, every arithmetic
step follows the source line by line.
-/

namespace MountMaker

/-- src/types.ts: Dimensions. -/
structure Dimensions where
  width : ℚ
  height : ℚ
  deriving DecidableEq, Repr

/-- src/types.ts: BorderConfig. -/
structure BorderConfig where
  top : ℚ
  bottom : ℚ
  left : ℚ
  right : ℚ
  deriving DecidableEq, Repr

/-- src/types.ts: the mode field, a two-valued string union. -/
inductive Mode where
  | FixedBoard
  | CustomBorders
  deriving DecidableEq, Repr

/-- src/types.ts: the global orientation, a two-valued string union. -/
inductive Orient where
  | portrait
  | landscape
  deriving DecidableEq, Repr

/-- src/types.ts: MountConfig, the single source of truth. -/
structure MountConfig where
  photoWidth : ℚ
  photoHeight : ℚ
  photoBorder : ℚ
  underlap : ℚ
  mountOffset : ℚ
  minBorderWidth : ℚ
  boardPreset : String
  customBoardSize : Dimensions
  mode : Mode
  manualBorders : BorderConfig
  orientation : Orient
  deriving DecidableEq, Repr

/-- src/types.ts: PaperSize. -/
structure PaperSize where
  name : String
  width : ℚ
  height : ℚ
  deriving DecidableEq, Repr

/-- src/constants.ts: PAPER_SIZES. -/
def PAPER_SIZES : List PaperSize := [
  { name := "A0", width := 841, height := 1189 },
  { name := "A1", width := 594, height := 841 },
  { name := "A2", width := 420, height := 594 },
  { name := "A3", width := 297, height := 420 },
  { name := "A4", width := 210, height := 297 },
  { name := "A5", width := 148, height := 210 },
  { name := "Letter", width := 215.9, height := 279.4 },
  { name := "Legal", width := 215.9, height := 355.6 },
  { name := "Tabloid", width := 279.4, height := 431.8 }
]

/-- src/App.tsx lines 95-98: the apertureSize useMemo. -/
def apertureSize (config : MountConfig) : Dimensions :=
  { width := config.photoWidth + (config.photoBorder * 2),
    height := config.photoHeight + (config.photoBorder * 2) }

/-- The aperture position: the x/y pair returned by the useMemo. -/
structure Point where
  x : ℚ
  y : ℚ
  deriving DecidableEq, Repr

/-- The record returned by the boardSize/aperturePosition useMemo. -/
structure CalcResult where
  boardSize : Dimensions
  aperturePosition : Point
  deriving DecidableEq, Repr

/-- src/App.tsx lines 101-152: the boardSize / aperturePosition useMemo,
mirrored branch by branch.  In FixedBoard mode the board is the custom
size when the preset is the literal "Custom", otherwise the preset found
by exact name in PAPER_SIZES (defaulting to 420×594 when absent) oriented
with Math.max/Math.min; the aperture is centered, with the mount offset
subtracted from y.  In CustomBorders mode the board grows around the
aperture by the manual borders. -/
def boardAndAperture (config : MountConfig) : CalcResult :=
  match config.mode with
  | Mode.FixedBoard =>
    let bw_bh : ℚ × ℚ :=
      if config.boardPreset = "Custom" then
        (config.customBoardSize.width, config.customBoardSize.height)
      else
        let preset := PAPER_SIZES.find? (fun p => p.name = config.boardPreset)
        let pW : ℚ := match preset with | some p => p.width | none => 420
        let pH : ℚ := match preset with | some p => p.height | none => 594
        match config.orientation with
        | Orient.landscape => (max pW pH, min pW pH)
        | Orient.portrait => (min pW pH, max pW pH)
    let ap := apertureSize config
    let totalMarginX := bw_bh.1 - ap.width
    let totalMarginY := bw_bh.2 - ap.height
    { boardSize := { width := bw_bh.1, height := bw_bh.2 },
      aperturePosition := { x := totalMarginX / 2,
                            y := totalMarginY / 2 - config.mountOffset } }
  | Mode.CustomBorders =>
    let ap := apertureSize config
    let b := config.manualBorders
    { boardSize := { width := ap.width + b.left + b.right,
                     height := ap.height + b.top + b.bottom },
      aperturePosition := { x := b.left, y := b.top } }

/-- src/App.tsx lines 165-187: toggleOrientation.  Flips the orientation
flag, swaps photoWidth with photoHeight and the custom board width with
its height; every other field is carried over by the spread. -/
def toggleOrientation (prev : MountConfig) : MountConfig :=
  { prev with
    orientation := match prev.orientation with
      | Orient.portrait => Orient.landscape
      | Orient.landscape => Orient.portrait,
    photoWidth := prev.photoHeight,
    photoHeight := prev.photoWidth,
    customBoardSize := { width := prev.customBoardSize.height,
                         height := prev.customBoardSize.width } }

/-- src/services/geminiService.ts lines 48-57: the suggestedValues object
of the response schema. -/
structure SuggestedValues where
  photoBorder : ℚ
  mountOffset : ℚ
  topBorder : ℚ
  bottomBorder : ℚ
  sideBorder : ℚ
  deriving DecidableEq, Repr

/-- src/services/geminiService.ts line 63: the parsed advisory response.
The suggestedValues property may be absent from the parsed JSON. -/
structure AdviceResponse where
  suggestion : String
  reasoning : String
  suggestedValues : Option SuggestedValues
  deriving DecidableEq, Repr

/-- src/types.ts: the fields of the Partial MountConfig actually put into
suggestedConfig by getMountAdvice. -/
structure SuggestedConfig where
  photoBorder : ℚ
  mountOffset : ℚ
  manualBorders : BorderConfig
  mode : Mode
  deriving DecidableEq, Repr

/-- src/types.ts: AIAdvice as produced by getMountAdvice. -/
structure AIAdvice where
  suggestion : String
  reasoning : String
  suggestedConfig : SuggestedConfig
  deriving DecidableEq, Repr

/-- src/services/geminiService.ts lines 63-84: the response mapping of
getMountAdvice.  The network call and JSON parsing are outside the
embedding; this function starts from the parsed response object.  A
response without suggestedValues throws ("Invalid response from AI"),
modelled as Except.error; otherwise both left and right manual borders
are taken from the single sideBorder value and the mode is forced to
CustomBorders. -/
def getMountAdvice (result : AdviceResponse) : Except String AIAdvice :=
  match result.suggestedValues with
  | none => Except.error "Invalid response from AI"
  | some sv => Except.ok {
      suggestion := result.suggestion,
      reasoning := result.reasoning,
      suggestedConfig := {
        photoBorder := sv.photoBorder,
        mountOffset := sv.mountOffset,
        manualBorders := { top := sv.topBorder, bottom := sv.bottomBorder,
                           left := sv.sideBorder, right := sv.sideBorder },
        mode := Mode.CustomBorders } }

/-- A paper size present in PAPER_SIZES under a given name is the one the
search by exact name match returns. -/
theorem find_paperSize_of_mem (n : String) (p : PaperSize)
    (hp : p ∈ PAPER_SIZES) (hn : p.name = n) :
    PAPER_SIZES.find? (fun q => q.name = n) = some p := by
  subst hn
  simp only [PAPER_SIZES, List.mem_cons, List.not_mem_nil, or_false] at hp
  rcases hp with h | h | h | h | h | h | h | h | h <;> subst h <;> rfl

/-- When no entry of PAPER_SIZES carries the given name, the search by
exact name match comes up empty. -/
theorem find_paperSize_of_not_mem (n : String)
    (h : ∀ p ∈ PAPER_SIZES, p.name ≠ n) :
    PAPER_SIZES.find? (fun q => q.name = n) = none := by
  rw [List.find?_eq_none]
  intro p hp
  simp [h p hp]

/-- src/App.tsx lines 68-80: the default MountConfig created at startup. -/
def defaultConfig : MountConfig :=
  { photoWidth := 203.2,
    photoHeight := 254,
    photoBorder := 6.35,
    underlap := 12.7,
    mountOffset := 7.62,
    minBorderWidth := 50.8,
    boardPreset := "A2",
    customBoardSize := { width := 420, height := 594 },
    mode := Mode.FixedBoard,
    manualBorders := { top := 50, bottom := 50, left := 50, right := 50 },
    orientation := Orient.portrait }

/-- C1: in FixedBoard mode the board size resolves as the spec says.
The preset "Custom" takes customBoardSize unchanged; any other preset
name is looked up by exact name in PAPER_SIZES (a found entry gives its
width/height pair, a missing name falls back to 420×594); the pair is
then oriented, landscape putting the larger dimension in the width and
portrait the smaller (when the two are equal, max and min coincide, so
no swap happens); in particular preset "A4" with portrait orientation
gives width 210 and height 297. -/
theorem c1_fixedBoard_board_resolution :
    (∀ cfg : MountConfig, cfg.mode = Mode.FixedBoard →
      cfg.boardPreset = "Custom" →
      (boardAndAperture cfg).boardSize = cfg.customBoardSize)
    ∧ (∀ cfg : MountConfig, ∀ p : PaperSize, cfg.mode = Mode.FixedBoard →
      cfg.boardPreset ≠ "Custom" →
      p ∈ PAPER_SIZES → p.name = cfg.boardPreset →
      (boardAndAperture cfg).boardSize =
        (match cfg.orientation with
         | Orient.landscape => { width := max p.width p.height, height := min p.width p.height }
         | Orient.portrait => { width := min p.width p.height, height := max p.width p.height }))
    ∧ (∀ cfg : MountConfig, cfg.mode = Mode.FixedBoard →
      cfg.boardPreset ≠ "Custom" →
      (∀ p ∈ PAPER_SIZES, p.name ≠ cfg.boardPreset) →
      (boardAndAperture cfg).boardSize =
        (match cfg.orientation with
         | Orient.landscape => { width := max (420 : ℚ) 594, height := min (420 : ℚ) 594 }
         | Orient.portrait => { width := min (420 : ℚ) 594, height := max (420 : ℚ) 594 }))
    ∧ (∀ cfg : MountConfig, cfg.mode = Mode.FixedBoard →
      cfg.boardPreset = "A4" → cfg.orientation = Orient.portrait →
      (boardAndAperture cfg).boardSize = { width := 210, height := 297 }) := by
  refine ⟨?_, ?_, ?_, ?_⟩
  · intro cfg hm hp
    simp [boardAndAperture, hm, hp]
  · intro cfg p hm hp hmem hname
    rw [boardAndAperture, hm]
    simp only
    rw [if_neg hp, find_paperSize_of_mem cfg.boardPreset p hmem hname]
    cases cfg.orientation <;> rfl
  · intro cfg hm hp hnone
    rw [boardAndAperture, hm]
    simp only
    rw [if_neg hp, find_paperSize_of_not_mem cfg.boardPreset hnone]
    cases cfg.orientation <;> rfl
  · intro cfg hm hp ho
    rw [boardAndAperture, hm]
    simp only
    rw [if_neg (by rw [hp]; decide), hp, ho]
    rfl

/-- C1 witness: the fourth conjunct instantiated at the default config
with preset "A4" resolves the board to 210×297. -/
theorem c1_fixedBoard_board_resolution_witness :
    (boardAndAperture { defaultConfig with boardPreset := "A4" }).boardSize
      = { width := 210, height := 297 } :=
  c1_fixedBoard_board_resolution.2.2.2
    { defaultConfig with boardPreset := "A4" } rfl rfl rfl

/-- C2: in FixedBoard mode, for every config, aX = (boardWidth -
apertureWidth) / 2 and aY = (boardHeight - apertureHeight) / 2 -
mountOffset; when mountOffset = 0 the aperture is exactly centered on
both axes. -/
theorem c2_fixedBoard_centering (cfg : MountConfig)
    (hm : cfg.mode = Mode.FixedBoard) :
    (boardAndAperture cfg).aperturePosition.x
      = ((boardAndAperture cfg).boardSize.width - (apertureSize cfg).width) / 2
    ∧ (boardAndAperture cfg).aperturePosition.y
      = ((boardAndAperture cfg).boardSize.height - (apertureSize cfg).height) / 2
          - cfg.mountOffset
    ∧ (cfg.mountOffset = 0 →
        (boardAndAperture cfg).aperturePosition.x
          = (boardAndAperture cfg).boardSize.width
              - (boardAndAperture cfg).aperturePosition.x
              - (apertureSize cfg).width
        ∧ (boardAndAperture cfg).aperturePosition.y
          = (boardAndAperture cfg).boardSize.height
              - (boardAndAperture cfg).aperturePosition.y
              - (apertureSize cfg).height) := by
  rw [boardAndAperture, hm]
  simp only
  refine ⟨trivial, trivial, fun h0 => ?_⟩
  rw [h0]
  constructor <;> ring

/-- C2 witness: at the default config with mountOffset set to 0, the
aperture is exactly centered on both axes. -/
theorem c2_fixedBoard_centering_witness :
    (boardAndAperture { defaultConfig with mountOffset := 0 }).aperturePosition.x
      = (boardAndAperture { defaultConfig with mountOffset := 0 }).boardSize.width
          - (boardAndAperture { defaultConfig with mountOffset := 0 }).aperturePosition.x
          - (apertureSize { defaultConfig with mountOffset := 0 }).width
    ∧ (boardAndAperture { defaultConfig with mountOffset := 0 }).aperturePosition.y
      = (boardAndAperture { defaultConfig with mountOffset := 0 }).boardSize.height
          - (boardAndAperture { defaultConfig with mountOffset := 0 }).aperturePosition.y
          - (apertureSize { defaultConfig with mountOffset := 0 }).height :=
  (c2_fixedBoard_centering { defaultConfig with mountOffset := 0 } rfl).2.2 rfl

/-- C3: the aperture size is photo size plus twice the photo border on
each axis, for every config (in either mode, and with no sign condition
on photoBorder: the formula is applied unchanged when photoBorder is
negative). -/
theorem c3_aperture_size_formula (cfg : MountConfig) :
    (apertureSize cfg).width = cfg.photoWidth + 2 * cfg.photoBorder
    ∧ (apertureSize cfg).height = cfg.photoHeight + 2 * cfg.photoBorder := by
  constructor <;> simp [apertureSize] <;> ring

/-- C4: in CustomBorders mode the board is the aperture grown by the
manual borders and the aperture sits at (left, top), so boardWidth -
apertureWidth is left + right and boardHeight - apertureHeight is top +
bottom; the concrete example of the spec evaluates as stated. -/
theorem c4_customBorders_geometry :
    (∀ cfg : MountConfig, cfg.mode = Mode.CustomBorders →
      (boardAndAperture cfg).boardSize.width
        = (apertureSize cfg).width + cfg.manualBorders.left + cfg.manualBorders.right
      ∧ (boardAndAperture cfg).boardSize.height
        = (apertureSize cfg).height + cfg.manualBorders.top + cfg.manualBorders.bottom
      ∧ (boardAndAperture cfg).aperturePosition.x = cfg.manualBorders.left
      ∧ (boardAndAperture cfg).aperturePosition.y = cfg.manualBorders.top
      ∧ (boardAndAperture cfg).boardSize.width - (apertureSize cfg).width
        = cfg.manualBorders.left + cfg.manualBorders.right
      ∧ (boardAndAperture cfg).boardSize.height - (apertureSize cfg).height
        = cfg.manualBorders.top + cfg.manualBorders.bottom)
    ∧ (apertureSize { defaultConfig with
          mode := Mode.CustomBorders,
          manualBorders := { top := 50, bottom := 60, left := 45, right := 45 } }
        = { width := 215.9, height := 266.7 }
      ∧ boardAndAperture { defaultConfig with
          mode := Mode.CustomBorders,
          manualBorders := { top := 50, bottom := 60, left := 45, right := 45 } }
        = { boardSize := { width := 305.9, height := 376.7 },
            aperturePosition := { x := 45, y := 50 } }) := by
  constructor
  · intro cfg hm
    rw [boardAndAperture, hm]
    simp only
    refine ⟨trivial, trivial, trivial, trivial, by ring, by ring⟩
  · constructor
    · norm_num [apertureSize, defaultConfig]
    · norm_num [boardAndAperture, apertureSize, defaultConfig]

/-- C4 witness: the universal part instantiated at the spec's concrete
example config. -/
theorem c4_customBorders_geometry_witness :
    (boardAndAperture { defaultConfig with
        mode := Mode.CustomBorders,
        manualBorders := { top := 50, bottom := 60, left := 45, right := 45 } }).boardSize.width
      = (apertureSize { defaultConfig with
          mode := Mode.CustomBorders,
          manualBorders := { top := 50, bottom := 60, left := 45, right := 45 } }).width + 45 + 45 :=
  (c4_customBorders_geometry.1 { defaultConfig with
      mode := Mode.CustomBorders,
      manualBorders := { top := 50, bottom := 60, left := 45, right := 45 } } rfl).1

/-- Evaluation of the FixedBoard branch when the preset name is found in
the table and the orientation is portrait. -/
theorem fixedBoard_eval_portrait (cfg : MountConfig) (p : PaperSize)
    (hm : cfg.mode = Mode.FixedBoard) (hc : cfg.boardPreset ≠ "Custom")
    (hfind : PAPER_SIZES.find? (fun q => q.name = cfg.boardPreset) = some p)
    (ho : cfg.orientation = Orient.portrait) :
    boardAndAperture cfg =
      { boardSize := { width := min p.width p.height, height := max p.width p.height },
        aperturePosition :=
          { x := (min p.width p.height - (apertureSize cfg).width) / 2,
            y := (max p.width p.height - (apertureSize cfg).height) / 2
                   - cfg.mountOffset } } := by
  rw [boardAndAperture, hm]
  simp only [if_neg hc, hfind, ho]

/-- C5: the end-to-end example of the spec.  The default config is
exactly this input (photo 203.2×254 mm, photo border 6.35 mm, FixedBoard
mode, preset "A2", portrait, mount offset 7.62 mm); the calculator
returns aperture 215.9×266.7, board 420×594, aX = 102.05, aY = 156.03. -/
theorem c5_end_to_end_example :
    apertureSize defaultConfig = { width := 215.9, height := 266.7 }
    ∧ (boardAndAperture defaultConfig).boardSize = { width := 420, height := 594 }
    ∧ (boardAndAperture defaultConfig).aperturePosition = { x := 102.05, y := 156.03 } := by
  have hfind : PAPER_SIZES.find? (fun q => q.name = defaultConfig.boardPreset)
      = some { name := "A2", width := 420, height := 594 } := rfl
  have e := fixedBoard_eval_portrait defaultConfig
    { name := "A2", width := 420, height := 594 } rfl (by decide) hfind rfl
  refine ⟨?_, ?_, ?_⟩
  · norm_num [apertureSize, defaultConfig]
  · rw [e]
    norm_num
  · rw [e]
    norm_num [apertureSize, defaultConfig]

/-- C6: in FixedBoard mode with everything else held fixed, at mount
offset k the bottom margin (boardHeight - aY - apertureHeight) exceeds
the top margin (aY) by exactly 2k more than at offset 0; when the
zero-offset configuration is exactly centered, bottom minus top equals
2k outright. -/
theorem c6_offset_weights_bottom (cfg : MountConfig) (k : ℚ)
    (hm : cfg.mode = Mode.FixedBoard) :
    (((boardAndAperture { cfg with mountOffset := k }).boardSize.height
        - (boardAndAperture { cfg with mountOffset := k }).aperturePosition.y
        - (apertureSize { cfg with mountOffset := k }).height)
      - (boardAndAperture { cfg with mountOffset := k }).aperturePosition.y)
    = (((boardAndAperture { cfg with mountOffset := 0 }).boardSize.height
        - (boardAndAperture { cfg with mountOffset := 0 }).aperturePosition.y
        - (apertureSize { cfg with mountOffset := 0 }).height)
      - (boardAndAperture { cfg with mountOffset := 0 }).aperturePosition.y)
      + 2 * k
    ∧ ((boardAndAperture { cfg with mountOffset := 0 }).aperturePosition.y
        = (boardAndAperture { cfg with mountOffset := 0 }).boardSize.height
            - (boardAndAperture { cfg with mountOffset := 0 }).aperturePosition.y
            - (apertureSize { cfg with mountOffset := 0 }).height →
      ((boardAndAperture { cfg with mountOffset := k }).boardSize.height
          - (boardAndAperture { cfg with mountOffset := k }).aperturePosition.y
          - (apertureSize { cfg with mountOffset := k }).height)
        - (boardAndAperture { cfg with mountOffset := k }).aperturePosition.y
      = 2 * k) := by
  rcases cfg with ⟨pw, ph, pb, ul, mo, mbw, bp, cbs, md, man, ori⟩
  cases md with
  | CustomBorders => simp at hm
  | FixedBoard =>
    simp only [boardAndAperture, apertureSize]
    exact ⟨by ring, fun _ => by ring⟩

/-- C6 witness: at the default config, the bottom-minus-top margin gap
at offset 5 is the gap at offset 0 plus 2·5. -/
theorem c6_offset_weights_bottom_witness :
    (((boardAndAperture { defaultConfig with mountOffset := (5 : ℚ) }).boardSize.height
        - (boardAndAperture { defaultConfig with mountOffset := (5 : ℚ) }).aperturePosition.y
        - (apertureSize { defaultConfig with mountOffset := (5 : ℚ) }).height)
      - (boardAndAperture { defaultConfig with mountOffset := (5 : ℚ) }).aperturePosition.y)
    = (((boardAndAperture { defaultConfig with mountOffset := (0 : ℚ) }).boardSize.height
        - (boardAndAperture { defaultConfig with mountOffset := (0 : ℚ) }).aperturePosition.y
        - (apertureSize { defaultConfig with mountOffset := (0 : ℚ) }).height)
      - (boardAndAperture { defaultConfig with mountOffset := (0 : ℚ) }).aperturePosition.y)
      + 2 * 5 :=
  (c6_offset_weights_bottom defaultConfig 5 rfl).1

/-- C7: the orientation toggle swaps photoWidth with photoHeight and the
custom board width with its height, flips the orientation flag, leaves
every other field unchanged, and applying it twice returns the whole
config (photoWidth, photoHeight and customBoardSize included) to its
original value. -/
theorem c7_toggle_orientation_involutive (cfg : MountConfig) :
    (toggleOrientation cfg).photoWidth = cfg.photoHeight
    ∧ (toggleOrientation cfg).photoHeight = cfg.photoWidth
    ∧ (toggleOrientation cfg).customBoardSize.width = cfg.customBoardSize.height
    ∧ (toggleOrientation cfg).customBoardSize.height = cfg.customBoardSize.width
    ∧ (toggleOrientation cfg).orientation ≠ cfg.orientation
    ∧ (toggleOrientation cfg).photoBorder = cfg.photoBorder
    ∧ (toggleOrientation cfg).underlap = cfg.underlap
    ∧ (toggleOrientation cfg).mountOffset = cfg.mountOffset
    ∧ (toggleOrientation cfg).minBorderWidth = cfg.minBorderWidth
    ∧ (toggleOrientation cfg).boardPreset = cfg.boardPreset
    ∧ (toggleOrientation cfg).mode = cfg.mode
    ∧ (toggleOrientation cfg).manualBorders = cfg.manualBorders
    ∧ toggleOrientation (toggleOrientation cfg) = cfg := by
  rcases cfg with ⟨pw, ph, pb, ul, mo, mbw, bp, ⟨cw, ch⟩, md, man, ori⟩
  cases ori <;> simp [toggleOrientation]

/-- A degenerate input: the photo plus borders is larger than the A2
board and the mount offset is large, so both aperture coordinates go
negative. -/
def degenerateConfig : MountConfig :=
  { defaultConfig with photoWidth := 500, photoHeight := 700, mountOffset := 100 }

/-- C8: the calculator is total — it is a plain function on configs with
rational fields, defined by arithmetic on every branch, so every config
(negative fields included) yields numeric board, position and aperture
values; and no clamping is applied: the position always equals the raw
branch formula, and on a concrete oversized input both aX and aY come
out negative instead of being corrected. -/
theorem c8_total_and_unclamped :
    (∀ cfg : MountConfig,
      (boardAndAperture cfg).aperturePosition.x
        = (match cfg.mode with
           | Mode.FixedBoard =>
             ((boardAndAperture cfg).boardSize.width - (apertureSize cfg).width) / 2
           | Mode.CustomBorders => cfg.manualBorders.left)
      ∧ (boardAndAperture cfg).aperturePosition.y
        = (match cfg.mode with
           | Mode.FixedBoard =>
             ((boardAndAperture cfg).boardSize.height - (apertureSize cfg).height) / 2
               - cfg.mountOffset
           | Mode.CustomBorders => cfg.manualBorders.top))
    ∧ (boardAndAperture degenerateConfig).aperturePosition.x < 0
    ∧ (boardAndAperture degenerateConfig).aperturePosition.y < 0 := by
  have e := fixedBoard_eval_portrait degenerateConfig
    { name := "A2", width := 420, height := 594 } rfl (by decide) rfl rfl
  refine ⟨?_, ?_, ?_⟩
  · intro cfg
    rcases cfg with ⟨pw, ph, pb, ul, mo, mbw, bp, cbs, md, man, ori⟩
    cases md <;> exact ⟨rfl, rfl⟩
  · rw [e]
    norm_num [apertureSize, degenerateConfig, defaultConfig]
  · rw [e]
    norm_num [apertureSize, degenerateConfig, defaultConfig]

/-- C9: in FixedBoard mode the board size is a function of boardPreset,
customBoardSize and orientation alone — two FixedBoard configs agreeing
on those three fields get the same board whatever their offsets, photo
fields or manual borders; and the aperture size is a function of
photoWidth, photoHeight and photoBorder alone, in either mode. -/
theorem c9_board_and_aperture_dependencies :
    (∀ c1 c2 : MountConfig, c1.mode = Mode.FixedBoard → c2.mode = Mode.FixedBoard →
      c1.boardPreset = c2.boardPreset → c1.customBoardSize = c2.customBoardSize →
      c1.orientation = c2.orientation →
      (boardAndAperture c1).boardSize = (boardAndAperture c2).boardSize)
    ∧ (∀ c1 c2 : MountConfig, c1.photoWidth = c2.photoWidth →
      c1.photoHeight = c2.photoHeight → c1.photoBorder = c2.photoBorder →
      apertureSize c1 = apertureSize c2) := by
  constructor
  · intro c1 c2 h1 h2 hbp hcbs hori
    rcases c1 with ⟨pw1, ph1, pb1, ul1, mo1, mbw1, bp1, cbs1, md1, man1, ori1⟩
    rcases c2 with ⟨pw2, ph2, pb2, ul2, mo2, mbw2, bp2, cbs2, md2, man2, ori2⟩
    obtain rfl : bp1 = bp2 := hbp
    obtain rfl : cbs1 = cbs2 := hcbs
    obtain rfl : ori1 = ori2 := hori
    obtain rfl : md1 = Mode.FixedBoard := h1
    obtain rfl : md2 = Mode.FixedBoard := h2
    rfl
  · intro c1 c2 hw hh hb
    rcases c1 with ⟨pw1, ph1, pb1, ul1, mo1, mbw1, bp1, cbs1, md1, man1, ori1⟩
    rcases c2 with ⟨pw2, ph2, pb2, ul2, mo2, mbw2, bp2, cbs2, md2, man2, ori2⟩
    obtain rfl : pw1 = pw2 := hw
    obtain rfl : ph1 = ph2 := hh
    obtain rfl : pb1 = pb2 := hb
    rfl

/-- C9 witness: the default config and the same config with a different
mount offset and photo width get the identical board size. -/
theorem c9_board_and_aperture_dependencies_witness :
    (boardAndAperture defaultConfig).boardSize
      = (boardAndAperture { defaultConfig with
          mountOffset := 999, photoWidth := 1 }).boardSize :=
  c9_board_and_aperture_dependencies.1 defaultConfig
    { defaultConfig with mountOffset := 999, photoWidth := 1 } rfl rfl rfl rfl rfl

/-- C10: the advisory response mapping.  A response carrying a
suggestedValues object is mapped to an AIAdvice whose suggestedConfig
copies the single sideBorder value into both left and right manual
borders (so they can never differ) and forces the mode to CustomBorders;
a response without suggestedValues is rejected with the error instead of
yielding any advice. -/
theorem c10_advice_mapping :
    (∀ (resp : AdviceResponse) (sv : SuggestedValues),
      resp.suggestedValues = some sv →
      getMountAdvice resp = Except.ok {
        suggestion := resp.suggestion,
        reasoning := resp.reasoning,
        suggestedConfig := {
          photoBorder := sv.photoBorder,
          mountOffset := sv.mountOffset,
          manualBorders := { top := sv.topBorder, bottom := sv.bottomBorder,
                             left := sv.sideBorder, right := sv.sideBorder },
          mode := Mode.CustomBorders } }
      ∧ (∀ adv : AIAdvice, getMountAdvice resp = Except.ok adv →
          adv.suggestedConfig.manualBorders.left
            = adv.suggestedConfig.manualBorders.right
          ∧ adv.suggestedConfig.manualBorders.left = sv.sideBorder
          ∧ adv.suggestedConfig.mode = Mode.CustomBorders))
    ∧ (∀ resp : AdviceResponse, resp.suggestedValues = none →
        getMountAdvice resp = Except.error "Invalid response from AI") := by
  constructor
  · intro resp sv h
    constructor
    · rw [getMountAdvice, h]
    · intro adv hadv
      rw [getMountAdvice, h] at hadv
      injection hadv with h2
      subst h2
      exact ⟨rfl, rfl, rfl⟩
  · intro resp h
    rw [getMountAdvice, h]

/-- A concrete set of suggested values. -/
def sampleValues : SuggestedValues :=
  { photoBorder := 5, mountOffset := 10,
    topBorder := 50, bottomBorder := 60, sideBorder := 45 }

/-- A concrete advisory response with suggested values present. -/
def sampleResponse : AdviceResponse :=
  { suggestion := "weighted bottom", reasoning := "balance",
    suggestedValues := some sampleValues }

/-- A concrete advisory response with no suggested values. -/
def emptyResponse : AdviceResponse :=
  { suggestion := "weighted bottom", reasoning := "balance",
    suggestedValues := none }

/-- C10 witness: the mapping applied to a concrete accepted response and
to a concrete rejected one. -/
theorem c10_advice_mapping_witness :
    getMountAdvice sampleResponse = Except.ok {
      suggestion := "weighted bottom",
      reasoning := "balance",
      suggestedConfig := {
        photoBorder := 5,
        mountOffset := 10,
        manualBorders := { top := 50, bottom := 60, left := 45, right := 45 },
        mode := Mode.CustomBorders } }
    ∧ getMountAdvice emptyResponse = Except.error "Invalid response from AI" :=
  ⟨(c10_advice_mapping.1 sampleResponse sampleValues rfl).1,
   c10_advice_mapping.2 emptyResponse rfl⟩

end MountMaker
